import Mathlib

/-!
Shallow embedding of `custom_components/nationalrailtimes/sensor.py` from the
`homeassistant_nationalrailtimes_integration` repository, together with proofs
about the behaviour of its departure sensor: construction, `async_update`
(the refresh routine), `extra_state_attributes`, `unique_id`, and the YAML
platform setup entry point `async_setup_platform`.

Python values flowing through the sensor (API results, configuration values)
are embedded as the inductive type `PyVal`; Python exceptions are embedded as
`PyErr` and fallible code returns `Except PyErr _`.  `async_update` mutates
the sensor object field by field and may raise partway through, so it returns
an `UpdateResult` carrying the object state at the point of the raise.
-/

namespace NationalRail

/-- Embedded Python values: `None`, strings, lists, dicts with string keys
(association lists in insertion order), and non-subscriptable callables such
as a bound method object. -/
inductive PyVal where
  | vNone : PyVal
  | vStr : String → PyVal
  | vList : List PyVal → PyVal
  | vDict : List (String × PyVal) → PyVal
  | vMethod : PyVal

/-- Embedded Python exceptions raised by the code under study. -/
inductive PyErr where
  | keyError : String → PyErr
  | indexError : PyErr
  | typeError : PyErr
  | attributeError : PyErr
  | valueError : PyErr
deriving DecidableEq

/-- First-match lookup in an association list with string keys; the embedding
of Python dict key access and of the `in` membership test. -/
def lookupKey {α : Type} : List (String × α) → String → Option α
  | [], _ => none
  | (k2, x) :: rest, k => if k2 = k then some x else lookupKey rest k

/-- Python truthiness test, negated: `not result` is true exactly on falsy
values (None, empty string, empty list, empty dict). -/
def falsy : PyVal → Bool
  | .vNone => true
  | .vStr s => s.data.isEmpty
  | .vList l => l.isEmpty
  | .vDict d => d.isEmpty
  | .vMethod => false

/-- Python subscript `v[k]` with a string key: dict lookup raising `KeyError`
on a missing key; on every non-dict value it raises `TypeError` (lists and
strings reject string indices, `None` and methods are not subscriptable). -/
def pySubscriptStr (v : PyVal) (k : String) : Except PyErr PyVal :=
  match v with
  | .vDict d =>
    match lookupKey d k with
    | some x => .ok x
    | none => .error (.keyError k)
  | _ => .error .typeError

/-- Python `v.get(k, dflt)` (and `v.get(k)` with `dflt = None`): defined on
dicts only; any other value has no `get` attribute. -/
def pyGetD (v : PyVal) (k : String) (dflt : PyVal) : Except PyErr PyVal :=
  match v with
  | .vDict d => .ok ((lookupKey d k).getD dflt)
  | _ => .error .attributeError

/-- Python subscript `v[0]`: `IndexError` on an empty list or string,
`KeyError` on a dict (integer key absent from string-keyed dicts),
`TypeError` on non-subscriptable values. -/
def pyIndex0 : PyVal → Except PyErr PyVal
  | .vList [] => .error .indexError
  | .vList (x :: _) => .ok x
  | .vStr s => if s.data.isEmpty then .error .indexError else .ok (.vStr (String.mk (s.data.take 1)))
  | .vDict _ => .error (.keyError "0")
  | _ => .error .typeError

/-- Python slice `v[1:]` on lists and strings. -/
def pySlice1 : PyVal → Except PyErr PyVal
  | .vList l => .ok (.vList (l.drop 1))
  | .vStr s => .ok (.vStr (String.mk (s.data.drop 1)))
  | _ => .error .typeError

/-- Python `len(v)` on sized values; `TypeError` otherwise. -/
def pyLen : PyVal → Except PyErr Nat
  | .vStr s => .ok s.data.length
  | .vList l => .ok l.length
  | .vDict d => .ok d.length
  | _ => .error .typeError

/-- Python iteration `for x in v`: lists yield elements, strings their
characters, dicts their keys; other values are not iterable. -/
def pyIter : PyVal → Except PyErr (List PyVal)
  | .vList l => .ok l
  | .vStr s => .ok (s.data.map (fun c => .vStr (String.mk [c])))
  | .vDict d => .ok (d.map (fun p => .vStr p.1))
  | _ => .error .typeError

/-- Python `v.copy()` followed by `.pop(k)` without a default, as on line 190
and 191 of `sensor.py`: on a dict it removes the key from the copy or raises
`KeyError`; a list's `pop` rejects a string argument with `TypeError`; other
values have no `copy` attribute. -/
def pyCopyPop (v : PyVal) (k : String) : Except PyErr (List (String × PyVal)) :=
  match v with
  | .vDict d =>
    match lookupKey d k with
    | some _ => .ok (d.filter (fun p => p.1 != k))
    | none => .error (.keyError k)
  | .vList _ => .error .typeError
  | _ => .error .attributeError

/-- Python equality of a value with a string literal: true exactly when the
value is that string (values of other types never equal a `str`). -/
def pyEqStr (v : PyVal) (s : String) : Bool :=
  match v with
  | .vStr t => t = s
  | _ => false

/-- Digit test over `Char` by code point, used by the time parser model. -/
def isDigitChar (c : Char) : Bool := 47 < c.toNat && c.toNat < 58

/-- Nonempty all-digit character list. -/
def isDigits (cs : List Char) : Bool := !cs.isEmpty && cs.all isDigitChar

/-- Numeric value of a digit character list. -/
def digitsVal (cs : List Char) : Nat := cs.foldl (fun a c => a * 10 + (c.toNat - 48)) 0

/-- Split a character list on the colon character. -/
def splitOnColon : List Char → List (List Char)
  | [] => [[]]
  | c :: rest =>
    let r := splitOnColon rest
    if c = ':' then [] :: r
    else
      match r with
      | [] => [[c]]
      | g :: gs => (c :: g) :: gs

/-- Model of the external time parser (`dateutil.parser.parse`) restricted to
the wall-clock strings the rail data source emits: accepts `H:MM`/`HH:MM`
digit strings denoting a valid time of day and yields the hour and minute;
anything else is a parse failure. -/
def parseTimeHM (s : String) : Option (Nat × Nat) :=
  match splitOnColon s.data with
  | [hs, ms] =>
    if isDigits hs && isDigits ms then
      if digitsVal hs < 24 ∧ digitsVal ms < 60 then some (digitsVal hs, digitsVal ms)
      else none
    else none
  | _ => none

/-- Two-digit zero padding, as `strftime` field formatting. -/
def pad2 (n : Nat) : String := if n < 10 then "0" ++ toString n else toString n

/-- Model of `strftime("%H:%M")` applied to a parsed time of day. -/
def strftimeHM (h m : Nat) : String := pad2 h ++ ":" ++ pad2 m

/-- Model of `parser.parse(next_train_time).strftime("%H:%M")` on line 183 of
`sensor.py`: the argument must be a string (else `TypeError`), and a string
the parser cannot interpret raises (`ValueError` family). -/
def parse_strftime (v : PyVal) : Except PyErr String :=
  match v with
  | .vStr s =>
    match parseTimeHM s with
    | some (h, m) => .ok (strftimeHM h m)
    | none => .error .valueError
  | _ => .error .typeError

/-- The sensor object state: the fields assigned in
`NationalrailSensor.__init__` (the `self.api` collaborator object is external
to this embedding; `api_key` and `time_window` flow only into it). -/
structure NationalrailSensor where
  _platformname : String
  _name : String
  time_offset : String
  destination : String
  station : String
  _state : Option String
  station_name : PyVal
  destination_name : PyVal
  last_data : PyVal
  service_data : PyVal

/-- `NationalrailSensor.__init__`: records identity, computes
`station + "_" + destination + "_" + time_offset` as `_name`, and starts with
an empty snapshot (`last_data = {}`, `service_data = {}`). -/
def NationalrailSensor.init (name station destination api_key time_offset time_window : String) : NationalrailSensor :=
  { _platformname := name
    _name := station ++ "_" ++ destination ++ "_" ++ time_offset
    time_offset := time_offset
    destination := destination
    station := station
    _state := none
    station_name := .vStr station
    destination_name := .vStr destination
    last_data := .vDict []
    service_data := .vDict [] }

/-- The `unique_id` property returns `self._name`. -/
def NationalrailSensor.unique_id (s : NationalrailSensor) : String := s._name

/-- Behaviour of the external fetch collaborator `self.api.api_request()`:
it returns a value, raises an `OSError`, or raises some other exception. -/
inductive FetchBehavior where
  | ok : PyVal → FetchBehavior
  | osError : FetchBehavior
  | otherError : FetchBehavior

/-- Outcome of one `async_update` call: normal return with the new object
state, or an uncaught exception together with the object state at the moment
of the raise (assignments already executed are kept). -/
inductive UpdateResult where
  | ok : NationalrailSensor → UpdateResult
  | raised : PyErr → NationalrailSensor → UpdateResult

/-- Projection to the sensor object state after an update call, whether it
returned or raised. -/
def afterUpdate : UpdateResult → NationalrailSensor
  | .ok s => s
  | .raised _ s => s

/-- Whether an update call propagated an exception to the caller. -/
def raisesException : UpdateResult → Bool
  | .ok _ => false
  | .raised _ _ => true

/-- The conditional expression on lines 177-181 of `sensor.py`:
`self.service_data["etd"] if self.service_data.get("etd", "On Time") != "On time"
else self.service_data["std"]`.  Note the differing capitalisation of the
`get` default ("On Time") and the compared sentinel ("On time"). -/
def nextTrainTime (sd : PyVal) : Except PyErr PyVal := do
  let flag ← pyGetD sd "etd" (.vStr "On Time")
  if pyEqStr flag "On time" then pySubscriptStr sd "std" else pySubscriptStr sd "etd"

/-- `NationalrailSensor.async_update` (lines 151-184 of `sensor.py`), with the
fetch collaborator's behaviour supplied as a parameter.  The `try` block
covers only the fetch and the falsy-result check; every statement from
`self.station_name = result["locationName"]` on runs outside it, so failures
there propagate with the partially updated object state. -/
def async_update (s : NationalrailSensor) (b : FetchBehavior) : UpdateResult :=
  match b with
  | .osError => .ok { s with _state := some "There was an internal error for this service" }
  | .otherError => .ok { s with _state := some "Cannot interpret XML for this service from National Rail" }
  | .ok result =>
    if falsy result then
      .ok { s with _state := some "There was no reply from National Rail Trains for this service" }
    else
      match pySubscriptStr result "locationName" with
      | .error e => .raised e s
      | .ok ln =>
        let s1 := { s with station_name := ln }
        match pySubscriptStr result "filterLocationName" with
        | .error e => .raised e s1
        | .ok fn =>
          let s2 := { s1 with destination_name := fn }
          match pyGetD result "trainServices" .vNone with
          | .error e => .raised e s2
          | .ok ts =>
            match pyIndex0 ts with
            | .error e => .raised e s2
            | .ok first =>
              let s3 := { s2 with service_data := first }
              match nextTrainTime first with
              | .error e => .raised e s3
              | .ok t =>
                match parse_strftime t with
                | .error e => .raised e s3
                | .ok out => .ok { s3 with _state := some out, last_data := result }

/-- A Python list comprehension `[f(x) for x in xs]`: applies `f` left to
right, propagating the first raised exception. -/
def listComp (f : PyVal → Except PyErr PyVal) : List PyVal → Except PyErr (List PyVal)
  | [] => .ok []
  | x :: xs => do
    let y ← f x
    let ys ← listComp f xs
    return y :: ys

/-- Modelled from the spec: the static station lookup table `STATIONS`
(module `station_codes` of this repository, not present under src/).  The
spec describes it as a static mapping from station code to human-readable
station name containing the entry `"KGX"` with name `"London Kings Cross"`. -/
def STATIONS : List (String × String) := [("KGX", "London Kings Cross")]

/-- `NationalrailSensor.extra_state_attributes` (lines 186-216 of
`sensor.py`).  Note the source pops `subsequentCallingPoints` from a copy of
the primary service record before the empty-snapshot early return. -/
def extra_state_attributes (s : NationalrailSensor) : Except PyErr (List (String × PyVal)) := do
  let data := s.last_data
  let service_data := s.service_data
  let service_dict ← pyCopyPop service_data "subsequentCallingPoints"
  let gen ← pyGetD data "generatedAt" (.vStr "")
  let attributes := [("last_refresh", gen)]
  let n ← pyLen data
  if n = 0 then
    return attributes
  else
    let msg ← pyGetD data "nrccMessages" (.vStr "")
    let sn ← pySubscriptStr data "locationName"
    let dn ← pySubscriptStr data "filterLocationName"
    let tsv ← pySubscriptStr data "trainServices"
    let services ← pySlice1 tsv
    let scp ← pyGetD service_data "subsequentCallingPoints" (.vList [.vDict []])
    let firstGroup ← pyIndex0 scp
    let cpl ← pyGetD firstGroup "callingPoint" (.vList [])
    let cps ← pyIter cpl
    let cpoints ← listComp (fun cp => pyGetD cp "locationName" (.vStr "")) cps
    let attributes := attributes ++ [("message", msg), ("station_name", sn),
      ("destination_name", dn), ("service", .vDict service_dict), ("services", services),
      ("calling_points", .vList cpoints), ("offset", .vStr s.time_offset),
      ("station_code", .vStr s.station)]
    match lookupKey STATIONS s.destination with
    | some nm => return attributes ++ [("target_station_name", .vStr nm),
        ("target_station_code", .vStr s.destination)]
    | none => return attributes

/-- Modelled from the spec: the configuration key constants imported from
module `const` of this repository (not present under src/); section 6 of the
spec names the configuration fields. -/
def CONF_NAME : String := "name"

/-- Modelled from the spec: configuration key for the departure station. -/
def CONF_ARRIVAL : String := "station"

/-- Modelled from the spec: configuration key for the destination list. -/
def CONF_DESTINATIONS : String := "destinations"

/-- Modelled from the spec: configuration key for the API credential. -/
def CONF_API_KEY : String := "api_key"

/-- Modelled from the spec: configuration key for the walk-time offset. -/
def CONF_TIME_OFFSET : String := "time_offset"

/-- Modelled from the spec: configuration key for the lookahead window. -/
def CONF_TIME_WINDOW : String := "time_window"

/-- The `NationalrailSensor(...)` constructor call as it appears in the setup
functions, applied to configuration values: `__init__` concatenates
`station`, `destination` and `time_offset` with `+`, which requires string
values; the embedding covers the string-typed case. -/
def mkSensorFromVals (name station destination api_key time_offset time_window : PyVal) : Except PyErr NationalrailSensor :=
  match name, station, destination, api_key, time_offset, time_window with
  | .vStr nm, .vStr st, .vStr de, .vStr key, .vStr off, .vStr win =>
    .ok (NationalrailSensor.init nm st de key off win)
  | _, _, _, _, _, _ => .error .typeError

/-- The sensor-building loop of `async_setup_platform` (lines 92-105):
`if station is not None: for destination in destinations: if destination is
not None: sensors.append(NationalrailSensor(...))`. -/
def buildSensors (name station destinations api_key time_offset time_window : PyVal) : Except PyErr (List NationalrailSensor) := do
  match station with
  | .vNone => return []
  | _ =>
    let ds ← pyIter destinations
    let opts ← ds.mapM (fun d =>
      match d with
      | .vNone => .ok none
      | _ => (mkSensorFromVals name station d api_key time_offset time_window).map some)
    return opts.filterMap id

/-- `async_setup_platform` (lines 78-107 of `sensor.py`).  Line 86 reads
`station = config.get[CONF_ARRIVAL]`: the expression `config.get` denotes the
bound dict method object (embedded as `PyVal.vMethod`) and is subscripted
instead of called, which raises `TypeError` for every configuration. -/
def async_setup_platform (config : List (String × PyVal)) : Except PyErr (List NationalrailSensor) := do
  let name := (lookupKey config CONF_NAME).getD .vNone
  let station ← pySubscriptStr .vMethod CONF_ARRIVAL
  let destinations := (lookupKey config CONF_DESTINATIONS).getD .vNone
  let api_key := (lookupKey config CONF_API_KEY).getD .vNone
  let time_offset := (lookupKey config CONF_TIME_OFFSET).getD .vNone
  let time_window := (lookupKey config CONF_TIME_WINDOW).getD .vNone
  let sensors ← buildSensors name station destinations api_key time_offset time_window
  return sensors

/-- A concretely configured sensor, as built for station "PAD", destination
"KGX", walk offset "5". -/
def freshPad : NationalrailSensor :=
  NationalrailSensor.init "National Rail" "PAD" "KGX" "key" "5" "120"

/-- A well-formed primary service record whose estimated departure is the
sentinel "On time". -/
def exampleService : PyVal := .vDict [("etd", .vStr "On time"), ("std", .vStr "10:30"),
  ("subsequentCallingPoints", .vList [.vDict [("callingPoint",
    .vList [.vDict [("locationName", .vStr "Reading")], .vDict [("locationName", .vStr "Slough")]])]])]

/-- A well-formed fetch result with one service. -/
def exampleResult : PyVal := .vDict [("generatedAt", .vStr "2022-01-01T10:00:00"),
  ("locationName", .vStr "London Paddington"), ("filterLocationName", .vStr "London Kings Cross"),
  ("nrccMessages", .vStr ""), ("trainServices", .vList [exampleService])]

/-- A truthy fetch result carrying both location names but an empty
`trainServices` list. -/
def emptyServicesResult : PyVal := .vDict [("locationName", .vStr "London Paddington"),
  ("filterLocationName", .vStr "London Kings Cross"), ("trainServices", .vList [])]

/-- A service record with a scheduled time but no `etd` key. -/
def noEtdService : PyVal := .vDict [("std", .vStr "10:30")]

/-- A truthy fetch result whose only service lacks the `etd` key. -/
def noEtdResult : PyVal := .vDict [("locationName", .vStr "London Paddington"),
  ("filterLocationName", .vStr "London Kings Cross"), ("trainServices", .vList [noEtdService])]

/-- A service record with departure times but no `subsequentCallingPoints`
key. -/
def noCPService : PyVal := .vDict [("etd", .vStr "12:05"), ("std", .vStr "12:00")]

/-- A truthy, well-formed fetch result whose only service lacks the
`subsequentCallingPoints` key. -/
def noCPResult : PyVal := .vDict [("generatedAt", .vStr "2022-01-01T11:55:00"),
  ("locationName", .vStr "London Paddington"), ("filterLocationName", .vStr "London Kings Cross"),
  ("nrccMessages", .vStr ""), ("trainServices", .vList [noCPService])]

/-- The sensor state after `freshPad` successfully refreshes with
`noCPResult`. -/
def sensorAfterNoCP : NationalrailSensor :=
  { freshPad with
    station_name := .vStr "London Paddington"
    destination_name := .vStr "London Kings Cross"
    service_data := noCPService
    _state := some "12:05"
    last_data := noCPResult }

/-- A fetch result is well formed when it is truthy and every step of the
success path of `async_update` succeeds on it: both location names are
present, the service list is non-empty, and the chosen departure time of the
first service exists and parses. -/
def WellFormedResult (v : PyVal) : Prop :=
  falsy v = false ∧
  (∃ ln, pySubscriptStr v "locationName" = .ok ln) ∧
  (∃ fn, pySubscriptStr v "filterLocationName" = .ok fn) ∧
  ∃ ts first t out, pyGetD v "trainServices" .vNone = .ok ts ∧ pyIndex0 ts = .ok first ∧
    nextTrainTime first = .ok t ∧ parse_strftime t = .ok out

/-- Success-path characterisation of `async_update`: when the fetch returns a
truthy result and every extraction step succeeds, the call returns normally
with the names, primary service, formatted state and full snapshot all
replaced. -/
theorem async_update_success (s : NationalrailSensor) (v ln fn ts first t : PyVal) (out : String)
    (hfal : falsy v = false)
    (hln : pySubscriptStr v "locationName" = .ok ln)
    (hfn : pySubscriptStr v "filterLocationName" = .ok fn)
    (hts : pyGetD v "trainServices" .vNone = .ok ts)
    (hfirst : pyIndex0 ts = .ok first)
    (ht : nextTrainTime first = .ok t)
    (hout : parse_strftime t = .ok out) :
    async_update s (.ok v) = .ok { s with
      station_name := ln
      destination_name := fn
      service_data := first
      _state := some out
      last_data := v } := by
  simp [async_update, hfal, hln, hfn, hts, hfirst, ht, hout]

/-- The parser model only accepts valid times of day. -/
theorem parseTimeHM_bounds (s : String) (h m : Nat) (hp : parseTimeHM s = some (h, m)) :
    h < 24 ∧ m < 60 := by
  unfold parseTimeHM at hp
  split at hp
  · split at hp
    · split at hp
      · rename_i hb
        obtain ⟨rfl, rfl⟩ := Option.some.injEq .. ▸ hp
        exact hb
      · exact absurd hp (by simp)
    · exact absurd hp (by simp)
  · exact absurd hp (by simp)

/-- Any string the parse-and-format model returns is the `strftime` rendering
of a valid time of day. -/
theorem parse_strftime_shape (v : PyVal) (out : String) (h : parse_strftime v = .ok out) :
    ∃ hh mm, hh < 24 ∧ mm < 60 ∧ out = strftimeHM hh mm := by
  unfold parse_strftime at h
  split at h
  · rename_i s
    split at h
    · rename_i hh mm hp
      obtain ⟨hb1, hb2⟩ := parseTimeHM_bounds s hh mm hp
      exact ⟨hh, mm, hb1, hb2, (Except.ok.injEq .. ▸ h).symm⟩
    · exact absurd h (by simp)
  · exact absurd h (by simp)

/-- C1: every failed refresh — falsy fetch result, transport (OS-level)
error, or any other fetch error — is caught by `async_update`, sets the
display state to the corresponding fixed sentinel message, and leaves every
other field of the sensor, in particular the snapshot `last_data` and
`service_data`, exactly as it was. -/
theorem sentinel_failures_preserve_snapshot (s : NationalrailSensor) (v : PyVal)
    (hv : falsy v = true) :
    async_update s (.ok v) =
      .ok { s with _state := some "There was no reply from National Rail Trains for this service" } ∧
    async_update s .osError =
      .ok { s with _state := some "There was an internal error for this service" } ∧
    async_update s .otherError =
      .ok { s with _state := some "Cannot interpret XML for this service from National Rail" } := by
  refine ⟨?_, rfl, rfl⟩
  simp [async_update, hv]

/-- Witness for C1 at the empty-dict fetch result. -/
theorem sentinel_failures_preserve_snapshot_witness :
    falsy (.vDict []) = true ∧
    async_update freshPad (.ok (.vDict [])) =
      .ok { freshPad with _state := some "There was no reply from National Rail Trains for this service" } :=
  ⟨rfl, (sentinel_failures_preserve_snapshot freshPad (.vDict []) rfl).1⟩

/-- C2 counterexample: a truthy fetch result with an empty `trainServices`
list makes `async_update` propagate an exception to the caller, so the claim
that refresh terminates normally for every returned mapping is false. -/
theorem refresh_raises_on_empty_service_list :
    raisesException (async_update freshPad (.ok emptyServicesResult)) = true := rfl

/-- C2 (amended): `async_update` terminates normally whenever the fetch
raises an error (transport-level or otherwise), returns a falsy result, or
returns a well-formed result; a truthy malformed mapping can instead
propagate an exception. -/
theorem refresh_no_raise_on_failure_or_wellformed (s : NationalrailSensor) (b : FetchBehavior)
    (h : b = .osError ∨ b = .otherError ∨ (∃ v, b = .ok v ∧ falsy v = true) ∨
      (∃ v, b = .ok v ∧ WellFormedResult v)) :
    raisesException (async_update s b) = false := by
  rcases h with rfl | rfl | ⟨v, rfl, hv⟩ | ⟨v, rfl, hfal, ⟨ln, hln⟩, ⟨fn, hfn⟩,
    ts, first, t, out, hts, hfirst, ht, hout⟩
  · rfl
  · rfl
  · simp [async_update, hv, raisesException]
  · rw [async_update_success s v ln fn ts first t out hfal hln hfn hts hfirst ht hout]
    rfl

/-- Witness for C2 (amended) at a transport error. -/
theorem refresh_no_raise_on_failure_or_wellformed_witness :
    raisesException (async_update freshPad .osError) = false :=
  refresh_no_raise_on_failure_or_wellformed freshPad .osError (Or.inl rfl)

/-- C3: evaluation at a primary service record that lacks the `etd` key.
Because the `get` default "On Time" differs in capitalisation from the
compared sentinel "On time", the code takes the estimated-time branch and
raises an uncaught `KeyError` on `self.service_data["etd"]`, instead of
using the scheduled time "10:30" that is present in the record. -/
theorem missing_etd_raises_keyerror :
    async_update freshPad (.ok noEtdResult) = .raised (.keyError "etd")
      { freshPad with
        station_name := .vStr "London Paddington"
        destination_name := .vStr "London Kings Cross"
        service_data := noEtdService } ∧
    pySubscriptStr noEtdService "std" = .ok (.vStr "10:30") :=
  ⟨rfl, rfl⟩

/-- C4: evaluation on a freshly constructed sensor (no fetch has ever
completed, snapshot empty).  `extra_state_attributes` pops
`subsequentCallingPoints` from a copy of the empty `service_data` before the
empty-snapshot early return, so it raises `KeyError` instead of returning the
single-key mapping the spec describes. -/
theorem fresh_attributes_raise_keyerror :
    extra_state_attributes freshPad = .error (.keyError "subsequentCallingPoints") := rfl

/-- C5: for every well-formed fetch result (non-empty service list, both
names present, parseable chosen departure time), the refresh returns
normally, the display state becomes that time rendered `HH:MM` (two-digit
hour below 24 and minute below 60), and the snapshot `last_data` is replaced
wholesale by the new result, with `service_data` replaced by its primary
service. -/
theorem wellformed_refresh_sets_hhmm_state (s : NationalrailSensor)
    (v ln fn ts first t : PyVal) (out : String)
    (hfal : falsy v = false)
    (hln : pySubscriptStr v "locationName" = .ok ln)
    (hfn : pySubscriptStr v "filterLocationName" = .ok fn)
    (hts : pyGetD v "trainServices" .vNone = .ok ts)
    (hfirst : pyIndex0 ts = .ok first)
    (ht : nextTrainTime first = .ok t)
    (hout : parse_strftime t = .ok out) :
    async_update s (.ok v) = .ok { s with
      station_name := ln
      destination_name := fn
      service_data := first
      _state := some out
      last_data := v } ∧
    ∃ hh mm, hh < 24 ∧ mm < 60 ∧ out = strftimeHM hh mm :=
  ⟨async_update_success s v ln fn ts first t out hfal hln hfn hts hfirst ht hout,
   parse_strftime_shape t out hout⟩

/-- Witness for C5 at a concrete fetch result whose primary service is
delayed to the sentinel "On time", so the scheduled time "10:30" is shown. -/
theorem wellformed_refresh_sets_hhmm_state_witness :
    async_update freshPad (.ok exampleResult) = .ok { freshPad with
      station_name := .vStr "London Paddington"
      destination_name := .vStr "London Kings Cross"
      service_data := exampleService
      _state := some "10:30"
      last_data := exampleResult } ∧
    ∃ hh mm, hh < 24 ∧ mm < 60 ∧ "10:30" = strftimeHM hh mm :=
  wellformed_refresh_sets_hhmm_state freshPad exampleResult _ _ _ _ _ _
    rfl rfl rfl rfl rfl rfl rfl

/-- C6: evaluation after a successful fetch whose primary service has no
`subsequentCallingPoints` field: the refresh itself succeeds, but
`extra_state_attributes` then raises `KeyError` from the unconditional `pop`,
instead of returning an attribute mapping with an empty `calling_points`
list. -/
theorem attributes_raise_without_calling_points_field :
    async_update freshPad (.ok noCPResult) = .ok sensorAfterNoCP ∧
    extra_state_attributes sensorAfterNoCP = .error (.keyError "subsequentCallingPoints") :=
  ⟨rfl, rfl⟩

/-- C8: the unique identifier is computed at construction as
`station + "_" + destination + "_" + time_offset`, is never changed by a
refresh (whether it returns or raises), and equals "PAD_KGX_5" for station
"PAD", destination "KGX", offset "5". -/
theorem unique_id_stable_concatenation
    (name station destination api_key time_offset time_window : String)
    (s : NationalrailSensor) (b : FetchBehavior) :
    (NationalrailSensor.init name station destination api_key time_offset time_window).unique_id =
      station ++ "_" ++ destination ++ "_" ++ time_offset ∧
    (afterUpdate (async_update s b)).unique_id = s.unique_id ∧
    (NationalrailSensor.init name "PAD" "KGX" api_key "5" time_window).unique_id = "PAD_KGX_5" := by
  refine ⟨rfl, ?_, rfl⟩
  cases b with
  | osError => rfl
  | otherError => rfl
  | ok v =>
    unfold async_update
    repeat first | rfl | split

/-- C9: a truthy fetch result carrying both location names but an empty
`trainServices` list makes `async_update` raise an uncaught `IndexError`
after `station_name` and `destination_name` have already been overwritten
with the fetched names, while `last_data`, `service_data` and the display
state keep their previous values: the sensor is left partially updated. -/
theorem empty_service_list_partial_update (s : NationalrailSensor) (v ln fn : PyVal)
    (hfal : falsy v = false)
    (hln : pySubscriptStr v "locationName" = .ok ln)
    (hfn : pySubscriptStr v "filterLocationName" = .ok fn)
    (hts : pyGetD v "trainServices" .vNone = .ok (.vList [])) :
    async_update s (.ok v) =
      .raised .indexError { s with station_name := ln, destination_name := fn } := by
  simp [async_update, hfal, hln, hfn, hts, pyIndex0]

/-- Witness for C9 at a concrete result with an empty service list. -/
theorem empty_service_list_partial_update_witness :
    falsy emptyServicesResult = false ∧
    async_update freshPad (.ok emptyServicesResult) = .raised .indexError
      { freshPad with
        station_name := .vStr "London Paddington"
        destination_name := .vStr "London Kings Cross" } :=
  ⟨rfl, empty_service_list_partial_update freshPad emptyServicesResult _ _ rfl rfl rfl rfl⟩

/-- Success-path characterisation of `extra_state_attributes`: on a sensor
with a non-empty snapshot, when every extraction step succeeds the call
returns the full attribute mapping in assignment order, with the
target-station pair appended exactly when the configured destination is a
key of the station lookup table. -/
theorem extra_state_attributes_success (s : NationalrailSensor)
    (gen msg sn dn tsv services scp firstGroup cpl : PyVal)
    (sdict : List (String × PyVal)) (cps cpoints : List PyVal) (n : Nat)
    (hcp : pyCopyPop s.service_data "subsequentCallingPoints" = .ok sdict)
    (hgen : pyGetD s.last_data "generatedAt" (.vStr "") = .ok gen)
    (hlen : pyLen s.last_data = .ok n) (hn : n ≠ 0)
    (hmsg : pyGetD s.last_data "nrccMessages" (.vStr "") = .ok msg)
    (hsn : pySubscriptStr s.last_data "locationName" = .ok sn)
    (hdn : pySubscriptStr s.last_data "filterLocationName" = .ok dn)
    (htv : pySubscriptStr s.last_data "trainServices" = .ok tsv)
    (hsl : pySlice1 tsv = .ok services)
    (hscp : pyGetD s.service_data "subsequentCallingPoints" (.vList [.vDict []]) = .ok scp)
    (hfg : pyIndex0 scp = .ok firstGroup)
    (hcpl : pyGetD firstGroup "callingPoint" (.vList []) = .ok cpl)
    (hit : pyIter cpl = .ok cps)
    (hmap : listComp (fun cp => pyGetD cp "locationName" (.vStr "")) cps = .ok cpoints) :
    extra_state_attributes s = .ok
      ([("last_refresh", gen), ("message", msg), ("station_name", sn), ("destination_name", dn),
        ("service", .vDict sdict), ("services", services), ("calling_points", .vList cpoints),
        ("offset", .vStr s.time_offset), ("station_code", .vStr s.station)] ++
       (match lookupKey STATIONS s.destination with
        | some nm => [("target_station_name", .vStr nm), ("target_station_code", .vStr s.destination)]
        | none => [])) := by
  simp only [extra_state_attributes, hcp, hgen, hlen, hmsg, hsn, hdn, htv, hsl, hscp, hfg,
    hcpl, hit, hmap, bind, Except.bind, pure, Except.pure, if_neg hn]
  cases lookupKey STATIONS s.destination <;> simp

/-- C7: after a successful fetch (through which the snapshot became the
fetched result) on which `extra_state_attributes` returns an attribute
mapping, that mapping contains both `target_station_name` and
`target_station_code` if and only if the configured destination code is a
key of the static station lookup table; when it is, their values are the
looked-up name and the destination code, and when it is not, neither key is
present in the mapping. -/
theorem attributes_target_station_iff_lookup (s : NationalrailSensor)
    (v ln fn ts first t gen msg services scp firstGroup cpl : PyVal) (out : String)
    (sdict : List (String × PyVal)) (cps cpoints : List PyVal) (n : Nat)
    (hfal : falsy v = false)
    (hln : pySubscriptStr v "locationName" = .ok ln)
    (hfn : pySubscriptStr v "filterLocationName" = .ok fn)
    (hts : pyGetD v "trainServices" .vNone = .ok ts)
    (hfirst : pyIndex0 ts = .ok first)
    (ht : nextTrainTime first = .ok t)
    (hout : parse_strftime t = .ok out)
    (hcp : pyCopyPop first "subsequentCallingPoints" = .ok sdict)
    (hgen : pyGetD v "generatedAt" (.vStr "") = .ok gen)
    (hlen : pyLen v = .ok n) (hn : n ≠ 0)
    (hmsg : pyGetD v "nrccMessages" (.vStr "") = .ok msg)
    (htv : pySubscriptStr v "trainServices" = .ok ts)
    (hsl : pySlice1 ts = .ok services)
    (hscp : pyGetD first "subsequentCallingPoints" (.vList [.vDict []]) = .ok scp)
    (hfg : pyIndex0 scp = .ok firstGroup)
    (hcpl : pyGetD firstGroup "callingPoint" (.vList []) = .ok cpl)
    (hit : pyIter cpl = .ok cps)
    (hmap : listComp (fun cp => pyGetD cp "locationName" (.vStr "")) cps = .ok cpoints) :
    ∃ m, extra_state_attributes (afterUpdate (async_update s (.ok v))) = .ok m ∧
      (((lookupKey m "target_station_name").isSome ∧ (lookupKey m "target_station_code").isSome) ↔
        (lookupKey STATIONS s.destination).isSome) ∧
      (∀ nm, lookupKey STATIONS s.destination = some nm →
        lookupKey m "target_station_name" = some (.vStr nm) ∧
        lookupKey m "target_station_code" = some (.vStr s.destination)) ∧
      (lookupKey STATIONS s.destination = none →
        lookupKey m "target_station_name" = none ∧
        lookupKey m "target_station_code" = none) := by
  rw [async_update_success s v ln fn ts first t out hfal hln hfn hts hfirst ht hout]
  have hattr := extra_state_attributes_success
    { s with
      station_name := ln
      destination_name := fn
      service_data := first
      _state := some out
      last_data := v }
    gen msg ln fn ts services scp firstGroup cpl sdict cps cpoints n
    hcp hgen hlen hn hmsg hln hfn htv hsl hscp hfg hcpl hit hmap
  refine ⟨_, hattr, ?_, ?_, ?_⟩
  · dsimp only
    cases hlook : lookupKey STATIONS s.destination <;>
      simp only [hlook] <;> simp [lookupKey]
  · intro nm hlook
    dsimp only
    simp only [hlook]
    simp [lookupKey]
  · intro hlook
    dsimp only
    simp only [hlook]
    simp [lookupKey]

/-- Witness for C7 at a concrete successful fetch with destination "KGX",
which the lookup table maps to "London Kings Cross". -/
theorem attributes_target_station_iff_lookup_witness :
    ∃ m, extra_state_attributes (afterUpdate (async_update freshPad (.ok exampleResult))) = .ok m ∧
      (((lookupKey m "target_station_name").isSome ∧ (lookupKey m "target_station_code").isSome) ↔
        (lookupKey STATIONS freshPad.destination).isSome) ∧
      (∀ nm, lookupKey STATIONS freshPad.destination = some nm →
        lookupKey m "target_station_name" = some (.vStr nm) ∧
        lookupKey m "target_station_code" = some (.vStr freshPad.destination)) ∧
      (lookupKey STATIONS freshPad.destination = none →
        lookupKey m "target_station_name" = none ∧
        lookupKey m "target_station_code" = none) :=
  attributes_target_station_iff_lookup freshPad exampleResult
    _ _ _ _ _ _ _ _ _ _ _ _ _ _ _ _
    rfl rfl rfl rfl rfl rfl rfl rfl rfl rfl (by decide) rfl rfl rfl rfl rfl rfl rfl rfl

/-- C10: for every configuration, `async_setup_platform` raises `TypeError`
while reading the station (it subscripts the bound method `config.get`
instead of calling it), so it never returns a sensor list and no sensor is
created through the YAML platform path. -/
theorem setup_platform_always_type_error (config : List (String × PyVal)) :
    async_setup_platform config = .error .typeError := rfl

end NationalRail
